import Mathlib

/-!
Verification development for the proxmox-backup-gui program
(source: src/proxmox-backup-gui.py, a PyQt6 desktop front-end for
proxmox-backup-client).

The Python code is shallowly embedded: the pure command/environment
builders become Lean functions over an explicit profile record, the
subprocess-driven flows become functions from the externally observable
child behaviour (stdout lines, exit code, stderr text, user choices) to
the events the code produces and the state it leaves behind.  Python
strings are modelled as Lean strings, with the string primitives the
code uses (rstrip, basename, strip, lower, split, endswith,
removesuffix) redefined over the underlying character lists so that
everything evaluates inside the kernel.
-/

namespace PBG

/-! ## Python string primitives -/

/-- Python `s.rstrip('/')`: drop trailing slash characters. -/
def pyRstripSlash (s : String) : String :=
  String.mk ((s.data.reverse.dropWhile (fun c => c = '/')).reverse)

/-- Python `os.path.basename(s)`: the part of `s` after the last slash
(`s` itself when it has no slash). -/
def pyBasename (s : String) : String :=
  String.mk ((s.data.reverse.takeWhile (fun c => c ≠ '/')).reverse)

/-- The ASCII whitespace characters removed by Python `str.strip()`:
space, tab, newline, carriage return, vertical tab, form feed. -/
def isPySpace (c : Char) : Bool :=
  c = ' ' || c = '\t' || c = '\n' || c = '\r' || c.toNat = 11 || c.toNat = 12

/-- Python `s.strip()`: drop leading and trailing whitespace. -/
def pyStrip (s : String) : String :=
  String.mk (((s.data.dropWhile isPySpace).reverse.dropWhile isPySpace).reverse)

/-- Python `s.lower()` (ASCII case folding, which is all the code exercises). -/
def pyLower (s : String) : String :=
  String.mk (s.data.map Char.toLower)

/-- Python `s.split('\n')`: split on every newline, keeping empty pieces. -/
def pySplitNL (s : String) : List String :=
  (List.splitOn '\n' s.data).map String.mk

/-- Python `s.endswith(suffix)`. -/
def pyEndsWith (s suffix : String) : Bool :=
  suffix.data.isSuffixOf s.data

/-- Python `s.removesuffix(suffix)`: drop `suffix` when it is there,
otherwise return `s` unchanged. -/
def pyRemoveSuffix (s suffix : String) : String :=
  if pyEndsWith s suffix then String.mk (s.data.take (s.data.length - suffix.data.length))
  else s

/-- Python `' '.join(cmd)`. -/
def joinSpace : List String → String
  | [] => ""
  | [s] => s
  | s :: rest => s ++ " " ++ joinSpace rest

/-! ## Data model

`BackupSource` mirrors the class of the same name (lines 35-54) and
`Config` mirrors the dictionary returned by
`ProxmoxBackupGUI.get_current_config` (lines 447-458), which is the
shape every command builder consumes. -/

structure BackupSource where
  path : String
  archive_type : String
  exclusions : List String
deriving DecidableEq

structure Config where
  repository : String
  api_key : String
  fingerprint : String
  backup_sources : List BackupSource
deriving DecidableEq

/-! ## Process environment

The code copies `os.environ` into a Python dict and assigns credential
variables into it; a dict is embedded as a partial map from variable
names to values. -/

def Env : Type := String → Option String

/-- Python `env[k] = v` on a dict. -/
def setVar (env : Env) (k v : String) : Env :=
  fun q => if q = k then some v else env q

/-- Dict lookup, `none` when the key is absent. -/
def getVar (env : Env) (k : String) : Option String := env k

/-- The empty environment (used to instantiate witnesses). -/
def emptyEnv : Env := fun _ => none

/-! ## CommandBuilder: backup (BackupWorker.get_backup_command, lines 65-78) -/

/-- The positional source argument of line 71-72:
the f-string built from `os.path.basename(source.path.rstrip('/'))`,
the archive type and the path, joined with a dot and a colon. -/
def source_arg (source : BackupSource) : String :=
  pyBasename (pyRstripSlash source.path) ++ "." ++ source.archive_type ++ ":" ++ source.path

/-- The `--exclude=` argument of line 75. -/
def excl_arg (exclusion : String) : String := "--exclude=" ++ exclusion

/-- `BackupWorker.get_backup_command` (lines 65-78): start from the
client name and subcommand, loop over the sources appending the
positional argument and then that source's exclusions, and finally
append the repository pair. -/
def get_backup_command (config : Config) : List String :=
  let cmd := ["proxmox-backup-client", "backup"]
  let cmd := config.backup_sources.foldl
    (fun cmd source =>
      source.exclusions.foldl (fun cmd exclusion => cmd ++ [excl_arg exclusion])
        (cmd ++ [source_arg source]))
    cmd
  cmd ++ ["--repository", config.repository]

/-- The per-source block the specification describes: the positional
argument immediately followed by that source's exclusion arguments. -/
def source_block (source : BackupSource) : List String :=
  source_arg source :: source.exclusions.map excl_arg

lemma exclusions_foldl (exs : List String) (acc : List String) :
    exs.foldl (fun cmd exclusion => cmd ++ [excl_arg exclusion]) acc
      = acc ++ exs.map excl_arg := by
  induction exs generalizing acc with
  | nil => simp
  | cons e exs ih => simp [ih, List.append_assoc]

lemma sources_foldl (srcs : List BackupSource) (acc : List String) :
    srcs.foldl
      (fun cmd source =>
        source.exclusions.foldl (fun cmd exclusion => cmd ++ [excl_arg exclusion])
          (cmd ++ [source_arg source])) acc
      = acc ++ srcs.flatMap source_block := by
  induction srcs generalizing acc with
  | nil => simp
  | cons s ss ih =>
    rw [List.foldl_cons, ih, exclusions_foldl]
    simp [source_block, List.append_assoc]

/-- Claim C1: for every profile with a non-empty source list, the backup
command is the fixed client/subcommand prefix, then, for each source in
stored order, one positional argument (basename of the slash-stripped
path, a dot, the archive type, a colon, the path) immediately followed
by one `--exclude=` argument per exclusion of that source in stored
order, and it ends with `--repository` and the profile's repository. -/
theorem get_backup_command_spec (config : Config) (h : config.backup_sources ≠ []) :
    get_backup_command config
      = ["proxmox-backup-client", "backup"]
          ++ config.backup_sources.flatMap source_block
          ++ ["--repository", config.repository] := by
  simp [get_backup_command, sources_foldl, List.append_assoc]

def cfgW1 : Config :=
  { repository := "host:8007:store"
    api_key := "secret-key"
    fingerprint := ""
    backup_sources :=
      [ { path := "/home/user/docs/", archive_type := "pxar", exclusions := ["*.tmp", "cache"] }
      , { path := "/var/lib", archive_type := "img", exclusions := [] } ] }

/-- Witness for C1 at a concrete profile: the trailing slash is
stripped, the final path component is kept, and the exclusions of the
first source sit between the two positional arguments. -/
theorem get_backup_command_spec_witness :
    cfgW1.backup_sources ≠ [] ∧
    get_backup_command cfgW1
      = ["proxmox-backup-client", "backup",
         "docs.pxar:/home/user/docs/", "--exclude=*.tmp", "--exclude=cache",
         "lib.img:/var/lib",
         "--repository", "host:8007:store"] :=
  ⟨by decide, (get_backup_command_spec cfgW1 (by decide)).trans (by decide)⟩

/-! ## ProcessRunner, streaming mode

`BackupWorker.run` (lines 80-117) spawns the backup child and loops over
its stdout; the interaction with the child is embedded by passing the
child's observable behaviour (the non-empty lines `readline` returns
before end of file, the exit code, the stderr text) as arguments, and
collecting the Qt signals the worker emits as an event list. -/

inductive WorkerEv where
  | commandReady (cmd : List String)
  | progress (message : String)
  | finished (success : Bool) (message : String)
deriving DecidableEq

/-- The `while True` loop of lines 101-106: `readline` yields each line,
then the empty string once the child has exited (which breaks the loop);
a non-empty line is emitted stripped, an empty read emits nothing. -/
def worker_loop : List String → List WorkerEv
  | [] => []
  | output :: rest =>
    if output = "" then worker_loop rest
    else WorkerEv.progress (pyStrip output) :: worker_loop rest

/-- `BackupWorker.run` (lines 80-117): emit the command, a progress line
echoing it, the streamed child lines, and then the terminal `finished`
signal — success with a fixed message on exit code 0, otherwise failure
with the prefix `Backup failed: ` followed by the captured stderr. -/
def worker_run (config : Config) (lines : List String) (returncode : Int)
    (stderrText : String) : List WorkerEv :=
  let cmd := get_backup_command config
  WorkerEv.commandReady cmd
    :: WorkerEv.progress ("Running command: " ++ joinSpace cmd)
    :: (worker_loop lines
        ++ [if returncode = 0 then WorkerEv.finished true "Backup completed successfully"
            else WorkerEv.finished false ("Backup failed: " ++ stderrText)])

/-- Outcome of the restore streaming flow of lines 954-975. -/
inductive RestoreOutcome where
  | cancelled
  | success
  | failure (message : String)
deriving DecidableEq

structure RestoreStreamResult where
  /-- Child output lines surfaced to the user during the loop.  The
  loop of lines 954-965 reads each line and discards it (the logging
  call is commented out), so this is always empty. -/
  delivered : List String
  /-- Whether `process.terminate()` was called. -/
  terminated : Bool
  outcome : RestoreOutcome
deriving DecidableEq

/-- The cancellation check of the loop in lines 954-965: one
`wasCanceled()` poll per line read while the child is still running;
`cancelAt = some k` means the poll first answers true on iteration `k`.
Returns true exactly when the loop exits through the cancel branch. -/
def restore_loop_cancelled : List String → Option Nat → Bool
  | [], _ => false
  | _ :: _, some 0 => true
  | _ :: rest, some (k + 1) => restore_loop_cancelled rest (some k)
  | _ :: rest, none => restore_loop_cancelled rest none

/-- The streaming part of `ProxmoxBackupGUI.restore_archive`
(lines 954-975): read lines until the child exits, terminating the
child and returning without any success/failure result when the dialog
is cancelled; otherwise report success on exit code 0 and otherwise a
failure message built from the captured stderr. -/
def restore_stream (lines : List String) (returncode : Int) (stderrText : String)
    (cancelAt : Option Nat) : RestoreStreamResult :=
  if restore_loop_cancelled lines cancelAt then
    { delivered := [], terminated := true, outcome := RestoreOutcome.cancelled }
  else
    { delivered := [], terminated := false,
      outcome :=
        if returncode = 0 then RestoreOutcome.success
        else RestoreOutcome.failure ("Failed to restore archive: " ++ stderrText) }

lemma restore_loop_cancelled_eq (lines : List String) (k : Nat) :
    restore_loop_cancelled lines (some k) = decide (k < lines.length) := by
  induction lines generalizing k with
  | nil => simp [restore_loop_cancelled]
  | cons l rest ih =>
    cases k with
    | zero => simp [restore_loop_cancelled]
    | succ k => simp [restore_loop_cancelled, ih, Nat.succ_lt_succ_iff]

lemma restore_loop_cancelled_none (lines : List String) :
    restore_loop_cancelled lines none = false := by
  induction lines with
  | nil => rfl
  | cons l rest ih => simp [restore_loop_cancelled, ih]

lemma worker_loop_eq (lines : List String) (h : ∀ l ∈ lines, l ≠ "") :
    worker_loop lines = lines.map (fun l => WorkerEv.progress (pyStrip l)) := by
  induction lines with
  | nil => rfl
  | cons l rest ih =>
    have hl : l ≠ "" := h l (by simp)
    simp [worker_loop, hl, ih (fun x hx => h x (by simp [hx]))]

/-- Counterexample to claim C2 as stated: on failure the terminal
message is not the captured stderr text itself — the worker prepends
the fixed prefix `Backup failed: ` (line 114). -/
theorem worker_failure_message_cex :
    (worker_run cfgW1 [] 1 "boom").getLast?
      = some (WorkerEv.finished false ("Backup failed: " ++ "boom")) ∧
    "Backup failed: " ++ "boom" ≠ "boom" := by
  constructor
  · rfl
  · decide

/-- Claim C2 as amended: in the backup streaming run every child stdout
line is delivered (stripped) in arrival order after the initial command
echo, the terminal result follows all of them with `exitCode == 0` as
the success test, the failure message is the fixed prefix followed by
the captured stderr, and no event follows the terminal result; the
restore streaming run discards child output lines, and a cancellation
observed while lines remain terminates the child and ends the run with
the cancelled outcome, never a success or failure result, while an
uncancelled run ends with the exit-code-determined result and no
termination signal. -/
theorem streaming_run_amended (config : Config) (lines : List String) (returncode : Int)
    (stderrText : String) (k : Nat)
    (hne : ∀ l ∈ lines, l ≠ "") (hk : k < lines.length) :
    worker_run config lines returncode stderrText
      = WorkerEv.commandReady (get_backup_command config)
          :: WorkerEv.progress ("Running command: " ++ joinSpace (get_backup_command config))
          :: (lines.map (fun l => WorkerEv.progress (pyStrip l))
              ++ [if returncode = 0 then WorkerEv.finished true "Backup completed successfully"
                  else WorkerEv.finished false ("Backup failed: " ++ stderrText)])
    ∧ restore_stream lines returncode stderrText (some k)
        = { delivered := [], terminated := true, outcome := RestoreOutcome.cancelled }
    ∧ restore_stream lines returncode stderrText none
        = { delivered := [], terminated := false,
            outcome :=
              if returncode = 0 then RestoreOutcome.success
              else RestoreOutcome.failure ("Failed to restore archive: " ++ stderrText) } := by
  refine ⟨?_, ?_, ?_⟩
  · simp [worker_run, worker_loop_eq lines hne]
  · simp [restore_stream, restore_loop_cancelled_eq, hk]
  · simp [restore_stream, restore_loop_cancelled_none]

/-- Witness for the amended C2 at a concrete run: two child lines, a
failing exit code, cancellation on the second line. -/
theorem streaming_run_amended_witness :
    (∀ l ∈ ["line one\n", " line two \n"], l ≠ "") ∧ 1 < (["line one\n", " line two \n"] : List String).length ∧
    (worker_run cfgW1 ["line one\n", " line two \n"] 1 "boom"
      = WorkerEv.commandReady (get_backup_command cfgW1)
          :: WorkerEv.progress ("Running command: " ++ joinSpace (get_backup_command cfgW1))
          :: (["line one\n", " line two \n"].map (fun l => WorkerEv.progress (pyStrip l))
              ++ [if (1 : Int) = 0 then WorkerEv.finished true "Backup completed successfully"
                  else WorkerEv.finished false ("Backup failed: " ++ "boom")])
    ∧ restore_stream ["line one\n", " line two \n"] 1 "boom" (some 1)
        = { delivered := [], terminated := true, outcome := RestoreOutcome.cancelled }
    ∧ restore_stream ["line one\n", " line two \n"] 1 "boom" none
        = { delivered := [], terminated := false,
            outcome :=
              if (1 : Int) = 0 then RestoreOutcome.success
              else RestoreOutcome.failure ("Failed to restore archive: " ++ "boom") }) :=
  ⟨by decide, by decide,
    streaming_run_amended cfgW1 ["line one\n", " line two \n"] 1 "boom" 1 (by decide) (by decide)⟩

/-! ## Remaining command builders and environment overlays -/

/-- Environment built by `BackupWorker.run` (lines 83-86): copy the base
environment, set `PBS_PASSWORD` to the api key, and set
`PBS_FINGERPRINT` only when the fingerprint is non-empty (Python
truthiness of the string). -/
def backup_env (base : Env) (config : Config) : Env :=
  let env := setVar base "PBS_PASSWORD" config.api_key
  if config.fingerprint ≠ "" then setVar env "PBS_FINGERPRINT" config.fingerprint else env

/-- Environment built by `refresh_archives` (lines 786-787),
`restore_archive` (lines 879-880), `mount_archive` (lines 1005-1006) and
`delete_archive` (lines 1142-1143): only `PBS_PASSWORD` is set. -/
def password_env (base : Env) (config : Config) : Env :=
  setVar base "PBS_PASSWORD" config.api_key

/-- Environment built by `test_connection` (lines 526-529) from the two
settings fields. -/
def test_connection_env (base : Env) (apiKeyText fingerprintText : String) : Env :=
  let env := setVar base "PBS_PASSWORD" apiKeyText
  if fingerprintText ≠ "" then setVar env "PBS_FINGERPRINT" fingerprintText else env

/-- `test_connection` command (lines 531-536). -/
def test_connection_cmd (repositoryText : String) : List String :=
  ["proxmox-backup-client", "list", "--repository", repositoryText, "--output-format", "json"]

/-- `refresh_archives` snapshot-list command (lines 789-795). -/
def refresh_cmd (config : Config) : List String :=
  ["proxmox-backup-client", "snapshot", "list", "--repository", config.repository,
   "--output-format", "json"]

/-- `snapshot files` command of `restore_archive` (lines 882-889) and
`mount_archive` (lines 1008-1015). -/
def snapshot_files_cmd (config : Config) (backup_id : String) : List String :=
  ["proxmox-backup-client", "snapshot", "files", backup_id, "--repository", config.repository,
   "--output-format", "json"]

/-- `restore` command (lines 930-937). -/
def restore_cmd (config : Config) (backup_id selected_file restore_path : String) : List String :=
  ["proxmox-backup-client", "restore", backup_id, selected_file, restore_path,
   "--repository", config.repository]

/-- `mount` command (lines 1056-1063). -/
def mount_cmd (config : Config) (backup_id selected_file mount_path : String) : List String :=
  ["proxmox-backup-client", "mount", backup_id, selected_file, mount_path,
   "--repository", config.repository]

/-- `snapshot forget` command of `delete_archive` (lines 1145-1151). -/
def forget_cmd (config : Config) (backup_id : String) : List String :=
  ["proxmox-backup-client", "snapshot", "forget", backup_id, "--repository", config.repository]

/-- `fusermount -u` command of `unmount_current` (line 1103). -/
def fusermount_cmd (mountPoint : String) : List String :=
  ["fusermount", "-u", mountPoint]

/-! ## Validation and spawn behaviour (claim C3) -/

/-- `ProxmoxBackupGUI.validate_config` (lines 424-445): false when no
profile is selected, when the profile has no sources, when its
repository is empty, or when its api key is empty. -/
def validate_config (current : Option Config) : Bool :=
  match current with
  | none => false
  | some profile =>
    if profile.backup_sources = [] then false
    else if profile.repository = "" then false
    else if profile.api_key = "" then false
    else true

/-- An observable operation event: either a validation failure surfaced
to the user, or the launch of a child process with a command line. -/
inductive OpEv where
  | validationError
  | spawn (cmd : List String)
deriving DecidableEq

/-- `start_backup` (lines 391-399): run `validate_config` first and
return without starting the worker when it fails; otherwise the worker
spawns the backup command. -/
def start_backup_events (current : Option Config) : List OpEv :=
  match current with
  | none => [OpEv.validationError]
  | some config =>
    if validate_config (some config) then [OpEv.spawn (get_backup_command config)]
    else [OpEv.validationError]

/-- `refresh_archives` (lines 783-797): builds the snapshot-list command
from the current profile and calls `subprocess.run` directly, with no
completeness validation beforehand. -/
def refresh_events (config : Config) : List OpEv :=
  [OpEv.spawn (refresh_cmd config)]

def cfgIncomplete : Config :=
  { repository := "", api_key := "", fingerprint := "", backup_sources := [] }

/-- Counterexample to claim C3 as stated: a profile with no sources,
empty repository and empty api key fails `validate_config`, yet the
list/refresh operation still launches its subprocess — the code of
lines 783-797 performs no validation before `subprocess.run`. -/
theorem refresh_unvalidated_cex :
    validate_config (some cfgIncomplete) = false ∧
    OpEv.spawn (refresh_cmd cfgIncomplete) ∈ refresh_events cfgIncomplete := by
  constructor
  · decide
  · simp [refresh_events]

/-- Claim C3 as amended: only the backup operation guards on the
completeness validation — when `validate_config` fails, `start_backup`
surfaces a validation error and spawns nothing; the catalog refresh
spawns its listing subprocess for every profile, validated or not. -/
theorem validation_gates_backup_only (current : Option Config) (config : Config)
    (h : validate_config current = false) :
    start_backup_events current = [OpEv.validationError]
    ∧ (∀ cmd, OpEv.spawn cmd ∉ start_backup_events current)
    ∧ OpEv.spawn (refresh_cmd config) ∈ refresh_events config := by
  have hstart : start_backup_events current = [OpEv.validationError] := by
    cases current with
    | none => rfl
    | some cfg => simp [start_backup_events, h]
  refine ⟨hstart, ?_, by simp [refresh_events]⟩
  intro cmd hmem
  rw [hstart] at hmem
  simp at hmem

/-- Witness for the amended C3: the incomplete profile fails validation,
backup spawns nothing, refresh still spawns. -/
theorem validation_gates_backup_only_witness :
    validate_config (some cfgIncomplete) = false ∧
    (start_backup_events (some cfgIncomplete) = [OpEv.validationError]
      ∧ (∀ cmd, OpEv.spawn cmd ∉ start_backup_events (some cfgIncomplete))
      ∧ OpEv.spawn (refresh_cmd cfgIncomplete) ∈ refresh_events cfgIncomplete) :=
  ⟨by decide, validation_gates_backup_only (some cfgIncomplete) cfgIncomplete (by decide)⟩

/-! ## Credential handling (claim C6) -/

/-- Replace the api key of a profile, leaving everything else alone. -/
def setApiKey (config : Config) (k : String) : Config :=
  { config with api_key := k }

def cfgFp : Config :=
  { repository := "host:8007:store", api_key := "secret-key", fingerprint := "ab:cd:ef",
    backup_sources := [ { path := "/data", archive_type := "pxar", exclusions := [] } ] }

/-- Counterexample to claim C6 as stated: the claim requires the
environment overlay of every operation to set the fingerprint variable
exactly when the profile fingerprint is non-empty, but the overlay used
by refresh/restore/mount/forget (`password_env`) never sets
`PBS_FINGERPRINT`, even for this profile whose fingerprint is
non-empty. -/
theorem fingerprint_env_cex :
    cfgFp.fingerprint ≠ "" ∧
    getVar (password_env emptyEnv cfgFp) "PBS_FINGERPRINT" = none ∧
    getVar (backup_env emptyEnv cfgFp) "PBS_FINGERPRINT" = some "ab:cd:ef" := by
  refine ⟨by decide, rfl, rfl⟩

/-- Claim C6 as amended: no built argument vector depends on the api
key (so the key never travels through the command line), every overlay
sets the credential variable to the api key, the backup worker's and
the connection test's overlays set the fingerprint variable exactly
when the fingerprint is non-empty, and the overlay shared by
refresh/restore/mount/forget sets only the credential variable, leaving
the fingerprint variable as in the base environment. -/
theorem credentials_env_spec (config : Config) (k : String) (base : Env)
    (backup_id selected_file dest apiKeyText fingerprintText : String) :
    get_backup_command (setApiKey config k) = get_backup_command config
    ∧ refresh_cmd (setApiKey config k) = refresh_cmd config
    ∧ snapshot_files_cmd (setApiKey config k) backup_id = snapshot_files_cmd config backup_id
    ∧ restore_cmd (setApiKey config k) backup_id selected_file dest
        = restore_cmd config backup_id selected_file dest
    ∧ mount_cmd (setApiKey config k) backup_id selected_file dest
        = mount_cmd config backup_id selected_file dest
    ∧ forget_cmd (setApiKey config k) backup_id = forget_cmd config backup_id
    ∧ getVar (backup_env base config) "PBS_PASSWORD" = some config.api_key
    ∧ getVar (backup_env base config) "PBS_FINGERPRINT"
        = (if config.fingerprint ≠ "" then some config.fingerprint
           else getVar base "PBS_FINGERPRINT")
    ∧ getVar (password_env base config) "PBS_PASSWORD" = some config.api_key
    ∧ getVar (password_env base config) "PBS_FINGERPRINT" = getVar base "PBS_FINGERPRINT"
    ∧ getVar (test_connection_env base apiKeyText fingerprintText) "PBS_PASSWORD"
        = some apiKeyText
    ∧ getVar (test_connection_env base apiKeyText fingerprintText) "PBS_FINGERPRINT"
        = (if fingerprintText ≠ "" then some fingerprintText
           else getVar base "PBS_FINGERPRINT") := by
  refine ⟨rfl, rfl, rfl, rfl, rfl, rfl, ?_, ?_, ?_, ?_, ?_, ?_⟩
  · by_cases hf : config.fingerprint = "" <;>
      simp [backup_env, password_env, getVar, setVar, hf]
  · by_cases hf : config.fingerprint = "" <;>
      simp [backup_env, password_env, getVar, setVar, hf]
  · simp [password_env, getVar, setVar]
  · simp [password_env, getVar, setVar]
  · by_cases hf : fingerprintText = "" <;>
      simp [test_connection_env, getVar, setVar, hf]
  · by_cases hf : fingerprintText = "" <;>
      simp [test_connection_env, getVar, setVar, hf]

/-! ## Snapshot-files parsing and file selection (restore/mount flows) -/

/-- The list comprehension of lines 903 and 1029: keep the filenames
ending in `.pxar.didx` and strip the trailing `.didx`. -/
def parse_pxar_files (files_data : List String) : List String :=
  (files_data.filter (fun f => pyEndsWith f ".pxar.didx")).map (fun f => pyRemoveSuffix f ".didx")

/-- The user's interaction with the file-selection dialog
(`QInputDialog.getItem`, shown only when more than one candidate
exists): either accept with the highlighted index — the dialog opens
with index 0 highlighted, so accepting without touching it yields the
first element — or cancel. -/
inductive FilePick where
  | accept (idx : Nat)
  | cancel
deriving DecidableEq

/-- File selection of lines 909-923 and 1035-1049: the first candidate
is picked outright when it is the only one; otherwise the dialog
decides, and cancelling it aborts the whole operation. -/
def choose_file (pxar_files : List String) (pick : FilePick) : Option String :=
  match pxar_files with
  | [] => none
  | f0 :: rest =>
    if rest = [] then some f0
    else
      match pick with
      | FilePick.accept idx => some ((f0 :: rest).getD idx f0)
      | FilePick.cancel => none

/-! ## MountManager (claims C4, C5) -/

inductive MountOutcome where
  | alreadyMounted
  | noSelection
  | noMountPath
  | filesError
  | parseError
  | noArchiveFiles
  | cancelledPick
  | mountFailed
  | mounted (path : String)
deriving DecidableEq

structure MountStep where
  newMount : Option String
  /-- Command lines handed to `subprocess`, in launch order. -/
  spawned : List (List String)
  outcome : MountOutcome
deriving DecidableEq

/-- `ProxmoxBackupGUI.mount_archive` (lines 981-1095) as a transition on
the tracked mount point `current_mount`.  The checks happen in source
order: an existing mount is rejected first (lines 982-984, before any
subprocess), then a missing table selection, then a cancelled
mount-directory dialog; the `snapshot files` child runs next, its
non-zero exit or malformed JSON aborts, an empty candidate list aborts,
a cancelled selection dialog aborts; finally the `mount` child runs and
the mount point is recorded only when it exits with code 0
(lines 1077-1088).  `files_data = none` stands for stdout that fails
JSON decoding; `some names` for a decoded array with those
filenames. -/
def mount_archive (current_mount : Option String) (config : Config)
    (selection : Option String) (mount_path : Option String)
    (filesExit : Int) (files_data : Option (List String)) (pick : FilePick)
    (mountExit : Int) : MountStep :=
  match current_mount with
  | some p => { newMount := some p, spawned := [], outcome := MountOutcome.alreadyMounted }
  | none =>
    match selection with
    | none => { newMount := none, spawned := [], outcome := MountOutcome.noSelection }
    | some backup_id =>
      match mount_path with
      | none => { newMount := none, spawned := [], outcome := MountOutcome.noMountPath }
      | some mpath =>
        if filesExit ≠ 0 then
          { newMount := none, spawned := [snapshot_files_cmd config backup_id],
            outcome := MountOutcome.filesError }
        else
          match files_data with
          | none =>
            { newMount := none, spawned := [snapshot_files_cmd config backup_id],
              outcome := MountOutcome.parseError }
          | some names =>
            if parse_pxar_files names = [] then
              { newMount := none, spawned := [snapshot_files_cmd config backup_id],
                outcome := MountOutcome.noArchiveFiles }
            else
              match choose_file (parse_pxar_files names) pick with
              | none =>
                { newMount := none, spawned := [snapshot_files_cmd config backup_id],
                  outcome := MountOutcome.cancelledPick }
              | some selected_file =>
                if mountExit = 0 then
                  { newMount := some mpath,
                    spawned := [snapshot_files_cmd config backup_id,
                                mount_cmd config backup_id selected_file mpath],
                    outcome := MountOutcome.mounted mpath }
                else
                  { newMount := none,
                    spawned := [snapshot_files_cmd config backup_id,
                                mount_cmd config backup_id selected_file mpath],
                    outcome := MountOutcome.mountFailed }

/-- Claim C4: while a mount is active, a second mount request is
rejected as already-mounted before any subprocess is spawned and the
recorded mount path is untouched; and whenever a run of `mount_archive`
leaves a recorded mount path, either it was already there unchanged, or
the mount command exited with code 0, the recorded path is the chosen
mount directory, and the outcome reports that mount. -/
theorem mount_exclusive_spec (p : String) (current_mount : Option String) (config : Config)
    (selection : Option String) (mount_path : Option String)
    (filesExit : Int) (files_data : Option (List String)) (pick : FilePick)
    (mountExit : Int) (q : String)
    (h : (mount_archive current_mount config selection mount_path filesExit files_data pick
            mountExit).newMount = some q) :
    mount_archive (some p) config selection mount_path filesExit files_data pick mountExit
      = { newMount := some p, spawned := [], outcome := MountOutcome.alreadyMounted }
    ∧ (current_mount = some q
        ∨ (mountExit = 0 ∧ mount_path = some q
            ∧ (mount_archive current_mount config selection mount_path filesExit files_data pick
                mountExit).outcome = MountOutcome.mounted q)) := by
  refine ⟨rfl, ?_⟩
  cases current_mount with
  | some p' =>
    left
    simp only [mount_archive] at h
    exact h
  | none =>
    right
    cases selection with
    | none => simp [mount_archive] at h
    | some backup_id =>
      cases mount_path with
      | none => simp [mount_archive] at h
      | some mpath =>
        simp only [mount_archive] at h
        by_cases hfe : filesExit ≠ 0
        · simp [hfe] at h
        · simp only [hfe, if_false] at h
          cases files_data with
          | none => simp at h
          | some names =>
            simp only at h
            by_cases hp : parse_pxar_files names = []
            · simp [hp] at h
            · simp only [hp, if_false] at h
              cases hc : choose_file (parse_pxar_files names) pick with
              | none => rw [hc] at h; simp at h
              | some selected_file =>
                rw [hc] at h
                by_cases hm : mountExit = 0
                · simp [hm] at h
                  subst h
                  refine ⟨hm, rfl, ?_⟩
                  simp [mount_archive, if_neg hfe, if_neg hp, hc, hm]
                · simp [hm] at h

def namesW : List String := ["root.pxar.didx", "data.pxar.didx", "disk.img.fidx"]

/-- Witness for C4 at a successful concrete mount: with no active
mount, a selected snapshot, a chosen directory, a clean listing and a
clean mount, the path is recorded; and a request made while `/mnt/a` is
mounted is rejected untouched. -/
theorem mount_exclusive_spec_witness :
    (mount_archive none cfgFp (some "host/vm/2024-01-01T00:00:00Z") (some "/mnt/b") 0
        (some namesW) (FilePick.accept 0) 0).newMount = some "/mnt/b" ∧
    (mount_archive (some "/mnt/a") cfgFp (some "host/vm/2024-01-01T00:00:00Z") (some "/mnt/b") 0
        (some namesW) (FilePick.accept 0) 0
      = { newMount := some "/mnt/a", spawned := [], outcome := MountOutcome.alreadyMounted }
    ∧ ((none : Option String) = some "/mnt/b"
        ∨ ((0 : Int) = 0 ∧ (some "/mnt/b" : Option String) = some "/mnt/b"
            ∧ (mount_archive none cfgFp (some "host/vm/2024-01-01T00:00:00Z") (some "/mnt/b") 0
                (some namesW) (FilePick.accept 0) 0).outcome
              = MountOutcome.mounted "/mnt/b"))) :=
  ⟨by decide,
    mount_exclusive_spec "/mnt/a" none cfgFp (some "host/vm/2024-01-01T00:00:00Z")
      (some "/mnt/b") 0 (some namesW) (FilePick.accept 0) 0 "/mnt/b" (by decide)⟩

inductive UnmountOutcome where
  | notMounted
  | unmounted (path : String)
  | unmountFailed (message : String)
deriving DecidableEq

structure UnmountStep where
  newMount : Option String
  spawned : List (List String)
  outcome : UnmountOutcome
deriving DecidableEq

/-- `ProxmoxBackupGUI.unmount_current` (lines 1097-1113): with no mount
recorded it reports not-mounted and runs nothing; otherwise it runs
`fusermount -u` on the recorded path and clears the record only when
that command exits with code 0, keeping it on failure. -/
def unmount_current (current_mount : Option String) (exitCode : Int)
    (stderrText : String) : UnmountStep :=
  match current_mount with
  | none => { newMount := none, spawned := [], outcome := UnmountOutcome.notMounted }
  | some path =>
    if exitCode = 0 then
      { newMount := none, spawned := [fusermount_cmd path],
        outcome := UnmountOutcome.unmounted path }
    else
      { newMount := some path, spawned := [fusermount_cmd path],
        outcome := UnmountOutcome.unmountFailed stderrText }

/-- Claim C5: in the unmounted state `unmount_current` reports
not-mounted and spawns no process; in the mounted state it runs exactly
the unmount command, clears the recorded mount only on exit code 0, and
keeps the recorded mount (and reports failure) on any other exit
code. -/
theorem unmount_spec (path stderrText : String) (exitCode : Int) :
    unmount_current none exitCode stderrText
      = { newMount := none, spawned := [], outcome := UnmountOutcome.notMounted }
    ∧ (unmount_current (some path) exitCode stderrText).spawned = [fusermount_cmd path]
    ∧ (unmount_current (some path) exitCode stderrText).newMount
        = (if exitCode = 0 then none else some path)
    ∧ (unmount_current (some path) exitCode stderrText).outcome
        = (if exitCode = 0 then UnmountOutcome.unmounted path
           else UnmountOutcome.unmountFailed stderrText) := by
  refine ⟨rfl, ?_, ?_, ?_⟩ <;> by_cases h : exitCode = 0 <;> simp [unmount_current, h]

/-! ## Claim C8: snapshot-files parsing against the claimed archive-type marker -/

/-- Modelled from the claim's words (spec side, for refinement
comparison only): the double-suffix marker the claim associates with
each archive type. -/
def claimMarker (archive_type : String) : String :=
  if archive_type = "pxar" then ".pxar.didx" else ".img.fidx"

/-- Modelled from the claim's words (spec side): the trailing index
suffix to strip for each archive type. -/
def claimIndexSuffix (archive_type : String) : String :=
  if archive_type = "pxar" then ".didx" else ".fidx"

/-- Modelled from the claim's words (spec side): filter the filenames by
the marker of the requested archive type and strip its index suffix. -/
def claim_parse_files (archive_type : String) (files_data : List String) : List String :=
  (files_data.filter (fun f => pyEndsWith f (claimMarker archive_type))).map
    (fun f => pyRemoveSuffix f (claimIndexSuffix archive_type))

/-- Counterexample to claim C8 as stated: for archive type `img` the
claim demands the `.img.fidx` files, but the code (lines 903, 1029)
always filters for `.pxar.didx` whatever the archive type, so on a
listing holding one img archive it returns nothing where the claim
demands `["b.img"]`. -/
theorem parse_files_type_cex :
    parse_pxar_files ["b.img.fidx"] = [] ∧
    claim_parse_files "img" ["b.img.fidx"] = ["b.img"] ∧
    ([] : List String) ≠ ["b.img"] := by
  refine ⟨by decide, by decide, by decide⟩

/-- Claim C8 as amended: the parse always uses the fixed pxar marker —
it coincides with the claimed behaviour exactly for archive type pxar
(keep the `.pxar.didx` filenames, strip `.didx`); when no filename
matches, the mount flow aborts with the no-archive-files outcome right
after the single listing-process launch; and accepting the selection
dialog at its initial position always yields the first candidate. -/
theorem parse_files_amended (files_data names : List String) (config : Config)
    (backup_id mpath : String) (pick : FilePick) (mountExit : Int)
    (hempty : parse_pxar_files names = []) :
    parse_pxar_files files_data = claim_parse_files "pxar" files_data
    ∧ parse_pxar_files ["a.pxar.didx", "b.img.fidx"] = ["a.pxar"]
    ∧ mount_archive none config (some backup_id) (some mpath) 0 (some names) pick mountExit
        = { newMount := none, spawned := [snapshot_files_cmd config backup_id],
            outcome := MountOutcome.noArchiveFiles }
    ∧ (∀ f0 rest, choose_file (f0 :: rest) (FilePick.accept 0) = some f0) := by
  refine ⟨?_, by decide, ?_, ?_⟩
  · simp [parse_pxar_files, claim_parse_files, claimMarker, claimIndexSuffix]
  · simp [mount_archive, hempty]
  · intro f0 rest
    cases rest <;> simp [choose_file]

/-- Witness for the amended C8 on a listing with no pxar archive. -/
theorem parse_files_amended_witness :
    parse_pxar_files ["disk.img.fidx"] = [] ∧
    (parse_pxar_files ["a.pxar.didx"] = claim_parse_files "pxar" ["a.pxar.didx"]
    ∧ parse_pxar_files ["a.pxar.didx", "b.img.fidx"] = ["a.pxar"]
    ∧ mount_archive none cfgFp (some "host/vm/2024-01-01T00:00:00Z") (some "/mnt/b") 0
        (some ["disk.img.fidx"]) (FilePick.accept 0) 0
        = { newMount := none,
            spawned := [snapshot_files_cmd cfgFp "host/vm/2024-01-01T00:00:00Z"],
            outcome := MountOutcome.noArchiveFiles }
    ∧ (∀ f0 rest, choose_file (f0 :: rest) (FilePick.accept 0) = some f0)) :=
  ⟨by decide,
    parse_files_amended ["a.pxar.didx"] ["disk.img.fidx"] cfgFp "host/vm/2024-01-01T00:00:00Z"
      "/mnt/b" (FilePick.accept 0) 0 (by decide)⟩

/-! ## ArchiveCatalog (claims C7, C9)

`refresh_archives` (lines 799-849) decodes the snapshot-list JSON into
a list of objects; one decoded object is embedded as a record of the
fields the code reads, each optional because the code supplies a
default through `dict.get`. -/

structure SnapEntry where
  backupType : Option String
  backupId : Option String
  backupTime : Option Int
  size : Option Int
  owner : Option String
  /-- The nested `verification.state` field; `none` when either level
  is absent (the code defaults through two `get` calls, line 845). -/
  verificationState : Option String
deriving DecidableEq

/-- The sort key of line 803: `x.get('backup-time', 0)`. -/
def snapKey (e : SnapEntry) : Int := e.backupTime.getD 0

/-- Ordering realised by `archives.sort(key=..., reverse=True)`
(line 803) on index-tagged entries: Python's sort is stable, so an
entry precedes another exactly when its key is strictly larger or the
keys tie and it came first.  Over index-tagged entries this relation
determines the sorted output uniquely, which makes the insertion sort
below a faithful embedding of the Python stable sort. -/
def snapLex : (Nat × SnapEntry) → (Nat × SnapEntry) → Prop :=
  fun a b => snapKey b.2 < snapKey a.2 ∨ (snapKey a.2 = snapKey b.2 ∧ a.1 ≤ b.1)

instance : DecidableRel snapLex := fun a b => by
  unfold snapLex; infer_instance

instance : IsTotal (Nat × SnapEntry) snapLex := ⟨by
  intro a b
  rcases lt_trichotomy (snapKey a.2) (snapKey b.2) with h | h | h
  · right; left; exact h
  · rcases Nat.le_total a.1 b.1 with h2 | h2
    · left; right; exact ⟨h, h2⟩
    · right; right; exact ⟨h.symm, h2⟩
  · left; left; exact h⟩

instance : IsTrans (Nat × SnapEntry) snapLex := ⟨by
  intro a b c hab hbc
  rcases hab with h1 | ⟨e1, l1⟩ <;> rcases hbc with h2 | ⟨e2, l2⟩
  · left; exact lt_trans h2 h1
  · left; omega
  · left; omega
  · right; exact ⟨e1.trans e2, le_trans l1 l2⟩⟩

/-- Line 803: the decoded entries sorted by backup time, most recent
first, ties in original order (entries are tagged with their original
position to express stability). -/
def sortArchives (archives : List SnapEntry) : List (Nat × SnapEntry) :=
  List.insertionSort snapLex archives.enum

/-- One displayed table row, restricted to the two columns the claims
constrain (owner, line 841, and verification state, lines 845-848). -/
structure ArchiveRow where
  owner : String
  verifyState : String
deriving DecidableEq

/-- Lines 845-848: take the nested verification state (default
`'none'`), lowercase it, and collapse anything outside `ok`/`none` to
`none`. -/
def normalizeVerify (v : Option String) : String :=
  let status := pyLower (v.getD "none")
  if status ∈ (["ok", "none"] : List String) then status else "none"

def rowOf (e : SnapEntry) : ArchiveRow :=
  { owner := e.owner.getD "Unknown", verifyState := normalizeVerify e.verificationState }

/-- The rows written into the table on a successful refresh, in table
order. -/
def refresh_rows (archives : List SnapEntry) : List ArchiveRow :=
  (sortArchives archives).map (fun p => rowOf p.2)

/-- Claim C7: the displayed records are a permutation of the decoded
entries ordered descending by backup time with ties keeping their
original relative order (the index-tagged sorted list is pairwise in
the stable-descending relation), missing owners default to `Unknown`,
and the verification state is `ok` exactly when the nested field equals
`ok` case-insensitively, otherwise `none`. -/
theorem parse_snapshot_list_spec (archives : List SnapEntry) :
    (sortArchives archives).Perm archives.enum
    ∧ List.Pairwise snapLex (sortArchives archives)
    ∧ List.Pairwise (fun a b => snapKey b.2 ≤ snapKey a.2) (sortArchives archives)
    ∧ refresh_rows archives = (sortArchives archives).map (fun p => rowOf p.2)
    ∧ ∀ e : SnapEntry,
        (rowOf e).owner = e.owner.getD "Unknown"
        ∧ (rowOf e).verifyState
            = (if pyLower (e.verificationState.getD "") = "ok" then "ok" else "none") := by
  refine ⟨List.perm_insertionSort snapLex archives.enum,
    List.sorted_insertionSort snapLex archives.enum,
    List.Pairwise.imp ?_ (List.sorted_insertionSort snapLex archives.enum),
    rfl, ?_⟩
  · intro a b hab
    rcases hab with h | ⟨h, _⟩
    · exact le_of_lt h
    · exact le_of_eq h.symm
  · intro e
    refine ⟨rfl, ?_⟩
    cases hv : e.verificationState with
    | none =>
      simp only [rowOf, normalizeVerify, hv, Option.getD]
      decide
    | some s =>
      simp only [rowOf, normalizeVerify, hv, Option.getD]
      by_cases h1 : pyLower s = "ok"
      · simp [h1]
      · by_cases h2 : pyLower s = "none"
        · simp [h1, h2]
        · simp [h1, h2]

/-- Sanity instance of the spec's worked example: backup times 100,
300, 200 come out ordered 300, 200, 100. -/
lemma sort_archives_example :
    (sortArchives
        [ { backupType := none, backupId := none, backupTime := some 100, size := none,
            owner := none, verificationState := none }
        , { backupType := none, backupId := none, backupTime := some 300, size := none,
            owner := none, verificationState := none }
        , { backupType := none, backupId := none, backupTime := some 200, size := none,
            owner := none, verificationState := none } ]).map (fun p => snapKey p.2)
      = [300, 200, 100] := by decide

/-! ## Claim C9: failed refresh leaves the catalog untouched -/

/-- The presentation state the refresh mutates: the table rows and the
stored archive data of the last successful refresh (lines 805-849). -/
structure CatalogState where
  rows : List ArchiveRow
  archive_data : List SnapEntry
deriving DecidableEq

inductive RefreshOutcome where
  | updated
  | listFailed (stderrText : String)
  | parseFailed
deriving DecidableEq

/-- The state-updating part of `refresh_archives` (lines 797-857): on
exit code 0 the stdout is JSON-decoded — a decode failure raises before
any mutation (line 800 precedes lines 805-849) and is reported; on
success the table and the stored data are rebuilt wholesale from the
sorted entries; on non-zero exit nothing at all happens (the error
branch of lines 851-854 is entirely commented out). -/
def refresh_state (st : CatalogState) (exitCode : Int)
    (parsed : Option (List SnapEntry)) (stderrText : String) : CatalogState × RefreshOutcome :=
  if exitCode = 0 then
    match parsed with
    | none => (st, RefreshOutcome.parseFailed)
    | some archives =>
      ({ rows := refresh_rows archives,
         archive_data := (sortArchives archives).map (fun p => p.2) },
       RefreshOutcome.updated)
  else (st, RefreshOutcome.listFailed stderrText)

/-- Claim C9: whenever the listing process exits non-zero or its output
fails to decode, the catalog state is returned unchanged and the
refresh does not report an update — no clearing, partial write or
corruption of the previously displayed rows and stored data. -/
theorem refresh_failure_frame (st : CatalogState) (exitCode : Int)
    (parsed : Option (List SnapEntry)) (stderrText : String)
    (h : exitCode ≠ 0 ∨ parsed = none) :
    (refresh_state st exitCode parsed stderrText).1 = st
    ∧ (refresh_state st exitCode parsed stderrText).2 ≠ RefreshOutcome.updated := by
  rcases h with h | h
  · simp [refresh_state, h]
  · subst h
    by_cases he : exitCode = 0 <;> simp [refresh_state, he]

def stW : CatalogState :=
  { rows := [ { owner := "root@pam", verifyState := "ok" } ]
    archive_data :=
      [ { backupType := some "host", backupId := some "vm", backupTime := some 100,
          size := some 42, owner := some "root@pam", verificationState := some "OK" } ] }

/-- Witness for C9: a non-zero exit leaves a concrete non-empty catalog
exactly as it was. -/
theorem refresh_failure_frame_witness :
    ((1 : Int) ≠ 0 ∨ (some [] : Option (List SnapEntry)) = none) ∧
    ((refresh_state stW 1 (some []) "connection refused").1 = stW
      ∧ (refresh_state stW 1 (some []) "connection refused").2 ≠ RefreshOutcome.updated) :=
  ⟨Or.inl (by decide), refresh_failure_frame stW 1 (some []) "connection refused" (Or.inl (by decide))⟩

/-! ## Claim C10: exclusion editing -/

/-- The assignment of line 340 in `edit_exclusions`: split the dialog
text on newlines, strip each line, keep only those whose stripped form
is non-empty (Python truthiness), in input order. -/
def edit_exclusions_save (text : String) : List String :=
  (pySplitNL text).filterMap
    (fun line => if pyStrip line ≠ "" then some (pyStrip line) else none)

lemma filterMap_strip_eq (ls : List String) :
    ls.filterMap (fun line => if pyStrip line ≠ "" then some (pyStrip line) else none)
      = (ls.map pyStrip).filter (fun l => l ≠ "") := by
  induction ls with
  | nil => rfl
  | cons a ls ih =>
    rw [List.filterMap_cons, List.map_cons, List.filter_cons, ih]
    by_cases h : pyStrip a = "" <;> simp [h]

lemma head?_dropWhile_not (p : Char → Bool) (l : List Char) :
    ∀ c, (l.dropWhile p).head? = some c → p c = false := by
  induction l with
  | nil => intro c hc; simp at hc
  | cons a l ih =>
    intro c hc
    by_cases h : p a
    · rw [List.dropWhile_cons_of_pos h] at hc
      exact ih c hc
    · rw [List.dropWhile_cons_of_neg h] at hc
      simp at hc
      subst hc
      exact Bool.eq_false_iff.mpr h

lemma getLast?_dropWhile (p : Char → Bool) (l : List Char) :
    ∀ c, (l.dropWhile p).getLast? = some c → l.getLast? = some c := by
  induction l with
  | nil => intro c hc; simp at hc
  | cons a l ih =>
    intro c hc
    by_cases h : p a
    · rw [List.dropWhile_cons_of_pos h] at hc
      have hl : l.getLast? = some c := ih c hc
      rw [List.getLast?_cons, hl]
      rfl
    · rw [List.dropWhile_cons_of_neg h] at hc
      exact hc

lemma pyStrip_head_not_space (s : String) :
    ∀ c, (pyStrip s).data.head? = some c → isPySpace c = false := by
  intro c hc
  have hc2 : (((s.data.dropWhile isPySpace).reverse.dropWhile isPySpace).reverse).head?
      = some c := hc
  rw [List.head?_reverse] at hc2
  have h2 := getLast?_dropWhile isPySpace (s.data.dropWhile isPySpace).reverse c hc2
  rw [List.getLast?_reverse] at h2
  exact head?_dropWhile_not isPySpace s.data c h2

lemma pyStrip_last_not_space (s : String) :
    ∀ c, (pyStrip s).data.getLast? = some c → isPySpace c = false := by
  intro c hc
  have hc2 : (((s.data.dropWhile isPySpace).reverse.dropWhile isPySpace).reverse).getLast?
      = some c := hc
  rw [List.getLast?_reverse] at hc2
  exact head?_dropWhile_not isPySpace _ c hc2

/-- Claim C10: the saved exclusions are exactly the whitespace-trimmed
non-empty lines of the entered text, in input order; every saved entry
is non-empty and carries no leading or trailing whitespace (its first
and last characters are not whitespace), so blank lines are silently
dropped. -/
theorem edit_exclusions_spec (text : String) :
    edit_exclusions_save text = ((pySplitNL text).map pyStrip).filter (fun l => l ≠ "")
    ∧ ∀ e ∈ edit_exclusions_save text,
        e ≠ ""
        ∧ (∀ c, e.data.head? = some c → isPySpace c = false)
        ∧ (∀ c, e.data.getLast? = some c → isPySpace c = false) := by
  refine ⟨filterMap_strip_eq _, ?_⟩
  intro e he
  rw [edit_exclusions_save, List.mem_filterMap] at he
  obtain ⟨line, _, hline⟩ := he
  by_cases h : pyStrip line = ""
  · simp [h] at hline
  · simp only [h, ne_eq, not_false_iff, if_true] at hline
    have he2 : pyStrip line = e := Option.some.inj hline
    subst he2
    exact ⟨h, pyStrip_head_not_space line, pyStrip_last_not_space line⟩

/-- Witness for C10 at a concrete dialog text with padding, a blank
line, and a whitespace-only line. -/
theorem edit_exclusions_spec_witness :
    (edit_exclusions_save "  *.tmp \n\n   \ncache"
        = ((pySplitNL "  *.tmp \n\n   \ncache").map pyStrip).filter (fun l => l ≠ "")
    ∧ ∀ e ∈ edit_exclusions_save "  *.tmp \n\n   \ncache",
        e ≠ ""
        ∧ (∀ c, e.data.head? = some c → isPySpace c = false)
        ∧ (∀ c, e.data.getLast? = some c → isPySpace c = false))
    ∧ edit_exclusions_save "  *.tmp \n\n   \ncache" = ["*.tmp", "cache"] :=
  ⟨edit_exclusions_spec "  *.tmp \n\n   \ncache", by decide⟩

end PBG
